import Mathlib

/-!
Verification of the Category Page Schema generator
(`src/schema_generator.py`): a shallow embedding of its data model and of
the fragment builders, graph assembler and validator, followed by theorems
about the generated JSON-LD documents.

Modelling conventions:
* A JSON-LD value is `JVal`; a Python dict is `JVal.obj` with its fields in
  insertion order, so keys added after construction appear at the end.
* A pandas cell that may be missing (`pd.notna` guarded) is `Option String`;
  `pd.notna` is `Option.isSome` and a missing scalar passes through as
  `JVal.null` (`optStr`).
* Each CSV table is a list of row structures; `DataFrame.__getitem__` with a
  boolean mask followed by `.iloc[0]` is `List.find?`, a mask alone is
  `List.filter`, and `sort_values` on an integer column is `sortByKey`.
* `generate_schema_for_category` raises `ValueError` for an unknown
  category; the embedding returns `Except String JVal` with `.error` for
  that raise.
-/

namespace CategorySchema

/-- A JSON value as produced by the generator (strings, ints, lists,
objects with ordered string keys, and null for missing scalar cells). -/
inductive JVal where
  | null : JVal
  | str : String → JVal
  | int : Int → JVal
  | list : List JVal → JVal
  | obj : List (String × JVal) → JVal

/-- A possibly-missing scalar cell carried into the document: present
cells pass through as strings, missing ones as null. -/
def optStr : Option String → JVal
  | some s => .str s
  | none => .null

/-- First value bound to key `k` in an ordered field list (Python dict
lookup). -/
def lookupField (k : String) : List (String × JVal) → Option JVal
  | [] => none
  | (k2, v) :: rest => if k2 = k then some v else lookupField k rest

/-- Dict lookup on a JSON value: `none` when the key is absent or the
value is not an object. -/
def objLookup (k : String) : JVal → Option JVal
  | .obj fields => lookupField k fields
  | _ => none

/-- `k in d` for a JSON object. -/
def hasKey (k : String) (v : JVal) : Bool :=
  (objLookup k v).isSome

/-- The `@graph` array of a document (empty when absent or not a list). -/
def graphNodes (doc : JVal) : List JVal :=
  match objLookup "@graph" doc with
  | some (.list xs) => xs
  | _ => []

/-- The `@type` of a graph node when it is a string. -/
def typeOf (v : JVal) : Option String :=
  match objLookup "@type" v with
  | some (.str s) => some s
  | _ => none

/-- Insert one element into a list sorted by an integer key, before the
first element with a key at least as large. -/
def insertByKey (key : α → Int) (a : α) : List α → List α
  | [] => [a]
  | b :: bs => if key a ≤ key b then a :: b :: bs else b :: insertByKey key a bs

/-- Sort a list ascending by an integer key (`DataFrame.sort_values`). -/
def sortByKey (key : α → Int) : List α → List α
  | [] => []
  | a :: rest => insertByKey key a (sortByKey key rest)

/-! ## The table store (§3 of the spec): one structure per CSV table row. -/

/-- One row of `01_organization_variables.csv`. -/
structure OrgRow where
  variableName : String
  value : String

/-- One row of `02_category_pages.csv`. -/
structure CategoryRow where
  categoryId : String
  category_page_url : String
  category_page_name : Option String := none
  category_page_headline : Option String := none
  category_page_description : Option String := none
  category_page_alternative_headline : Option String := none
  category_keywords : Option String := none
  breadcrumb_1_name : Option String := none
  breadcrumb_1_url : Option String := none
  breadcrumb_2_name : Option String := none
  catalog_id : String
  catalog_name : Option String := none
  catalog_description : Option String := none
  total_courses : Int

/-- One row of `03_category_about_topics.csv` (wide columns 1..3). -/
structure AboutRow where
  categoryId : String
  about_topic_1_name : Option String := none
  about_topic_1_description : Option String := none
  about_topic_2_name : Option String := none
  about_topic_2_description : Option String := none
  about_topic_3_name : Option String := none
  about_topic_3_description : Option String := none

/-- One row of `04_courses_master_list.csv`. -/
structure CourseRow where
  categoryId : String
  course_position : Int
  course_name : Option String := none
  course_alternate_name : Option String := none
  course_description : Option String := none
  course_url : Option String := none
  course_credential : Option String := none
  course_level : Option String := none
  course_duration_iso8601 : Option String := none
  course_abstract : Option String := none
  course_prerequisites : Option String := none
  course_benefits : Option String := none
  course_audience_type : Option String := none
  course_language : Option String := none
  course_mode_1 : Option String := none
  course_mode_2 : Option String := none
  course_workload_iso8601 : Option String := none
  course_timezone : Option String := none
  course_instructor_org : Option String := none
  offer_category : Option String := none
  offer_availability_starts : Option String := none
  offer_valid_from : Option String := none
  eligible_region_type : Option String := none
  eligible_region_name : Option String := none
  eligible_region_code : Option String := none
  course_in_language : Option String := none
  location_created_type : Option String := none
  location_created_name : Option String := none
  location_created_region : Option String := none
  course_educational_use : Option String := none
  course_learning_resource_type : Option String := none
  course_age_range : Option String := none
  course_code : Option String := none
  geographic_type : Option String := none
  geographic_name : Option String := none

/-- One row of `05_course_topics.csv` (wide columns 1..8). -/
structure TopicsRow where
  categoryId : String
  course_position : Int
  course_topic_1 : Option String := none
  course_topic_2 : Option String := none
  course_topic_3 : Option String := none
  course_topic_4 : Option String := none
  course_topic_5 : Option String := none
  course_topic_6 : Option String := none
  course_topic_7 : Option String := none
  course_topic_8 : Option String := none

/-- One row of `06_area_served.csv`. -/
structure AreaRow where
  categoryId : String
  area_served_name : Option String := none
  area_served_code : Option String := none
  area_served_description : Option String := none

/-- One row of `07_categories_tags.csv` (wide columns 1..6). -/
structure TagsRow where
  categoryId : String
  category_1 : Option String := none
  category_2 : Option String := none
  category_3 : Option String := none
  category_4 : Option String := none
  category_5 : Option String := none
  category_6 : Option String := none

/-- One row of `08_faqs.csv`. -/
structure FaqRow where
  categoryId : String
  faq_position : Int
  faq_question : Option String := none
  faq_answer : Option String := none

/-- The loaded table store (`SchemaGenerator.__init__` + `load_data`). -/
structure SchemaGenerator where
  org_data : List OrgRow
  category_data : List CategoryRow
  about_topics_data : List AboutRow
  courses_data : List CourseRow
  topics_data : List TopicsRow
  areas_data : List AreaRow
  categories_data : List TagsRow
  faqs_data : List FaqRow

/-! ## The field resolver and fragment builders. -/

/-- `SchemaGenerator.get_org_value`: the `Value` of the first
OrganizationVariable row whose `Variable Name` equals `variable_name`, or
the empty string when no row matches. -/
def get_org_value (g : SchemaGenerator) (variable_name : String) : String :=
  match g.org_data.find? (fun r => r.variableName == variable_name) with
  | some row => row.value
  | none => ""

/-- `SchemaGenerator.generate_website_schema`. -/
def generate_website_schema (g : SchemaGenerator) : JVal :=
  .obj
    [("@type", .str "WebSite"),
     ("name", .str (get_org_value g "organization_name")),
     ("@id", .str (get_org_value g "base_url" ++ "/#website")),
     ("url", .str (get_org_value g "base_url")),
     ("description", .str (get_org_value g "organization_description")),
     ("publisher", .obj [("@id", .str (get_org_value g "base_url" ++ "/#organization"))])]

/-- `SchemaGenerator.generate_organization_schema`. -/
def generate_organization_schema (g : SchemaGenerator) : JVal :=
  .obj
    [("@type", .str "EducationalOrganization"),
     ("@id", .str (get_org_value g "base_url" ++ "/#organization")),
     ("name", .str (get_org_value g "organization_name")),
     ("description", .str (get_org_value g "organization_long_description")),
     ("url", .str (get_org_value g "base_url")),
     ("logo", .str (get_org_value g "organization_logo_url")),
     ("sameAs", .list
        [.str (get_org_value g "social_facebook"),
         .str (get_org_value g "social_instagram"),
         .str (get_org_value g "social_twitter"),
         .str (get_org_value g "social_linkedin"),
         .str (get_org_value g "social_youtube"),
         .str (get_org_value g "social_tiktok")]),
     ("award", .str (get_org_value g "organization_award"))]

/-- `SchemaGenerator.generate_breadcrumb_schema`: item 1 only when its
name is present (with its url), item 2 only when its name is present
(without an `item` url). -/
def generate_breadcrumb_schema (category_row : CategoryRow) : JVal :=
  let items1 : List JVal :=
    if category_row.breadcrumb_1_name.isSome then
      [.obj [("@type", .str "ListItem"),
             ("position", .int 1),
             ("name", optStr category_row.breadcrumb_1_name),
             ("item", optStr category_row.breadcrumb_1_url)]]
    else []
  let items2 : List JVal :=
    if category_row.breadcrumb_2_name.isSome then
      [.obj [("@type", .str "ListItem"),
             ("position", .int 2),
             ("name", optStr category_row.breadcrumb_2_name)]]
    else []
  .obj [("@type", .str "BreadcrumbList"),
        ("itemListElement", .list (items1 ++ items2))]

/-- `SchemaGenerator.generate_about_topics`: up to 3 Thing nodes from the
first AboutRow of the category, a topic included only when its name is
present. -/
def generate_about_topics (g : SchemaGenerator) (category_id : String) : List JVal :=
  match g.about_topics_data.find? (fun r => r.categoryId == category_id) with
  | none => []
  | some row =>
    (if row.about_topic_1_name.isSome then
       [JVal.obj [("@type", .str "Thing"),
                  ("name", optStr row.about_topic_1_name),
                  ("description", optStr row.about_topic_1_description)]]
     else [])
    ++ (if row.about_topic_2_name.isSome then
          [JVal.obj [("@type", .str "Thing"),
                     ("name", optStr row.about_topic_2_name),
                     ("description", optStr row.about_topic_2_description)]]
        else [])
    ++ (if row.about_topic_3_name.isSome then
          [JVal.obj [("@type", .str "Thing"),
                     ("name", optStr row.about_topic_3_name),
                     ("description", optStr row.about_topic_3_description)]]
        else [])

/-- `SchemaGenerator.generate_collection_page_schema`. -/
def generate_collection_page_schema (g : SchemaGenerator) (category_row : CategoryRow) : JVal :=
  .obj
    [("@type", .str "CollectionPage"),
     ("@id", .str (category_row.category_page_url ++ "#catalog")),
     ("url", .str category_row.category_page_url),
     ("name", optStr category_row.category_page_name),
     ("headline", optStr category_row.category_page_headline),
     ("description", optStr category_row.category_page_description),
     ("alternativeHeadline", optStr category_row.category_page_alternative_headline),
     ("about", .list (generate_about_topics g category_row.categoryId)),
     ("keywords", optStr category_row.category_keywords),
     ("isPartOf", .obj [("@id", .str (get_org_value g "base_url" ++ "/#website"))]),
     ("breadcrumb", generate_breadcrumb_schema category_row),
     ("mainEntity", .obj [("@id", .str ("#" ++ category_row.catalog_id))])]

/-- `SchemaGenerator.generate_course_schema`. The Python code builds the
dict and then conditionally mutates it (appends `course_mode_2` to the
`courseMode` list, adds `geographicArea` to `audience`, adds `courseCode`
at the end of the dict); the embedding inlines each mutation at the spot
where the key lands in insertion order. -/
def generate_course_schema (g : SchemaGenerator) (course_row : CourseRow)
    (category_row : CategoryRow) : JVal :=
  let category_id := course_row.categoryId
  let course_position := course_row.course_position
  let teaches : List JVal :=
    match g.topics_data.find?
        (fun r => r.categoryId == category_id && r.course_position == course_position) with
    | none => []
    | some t =>
      ([t.course_topic_1, t.course_topic_2, t.course_topic_3, t.course_topic_4,
        t.course_topic_5, t.course_topic_6, t.course_topic_7,
        t.course_topic_8]).filterMap (fun o => o.map JVal.str)
  .obj (
    [("@type", .str "Course"),
     ("position", .int course_position),
     ("name", optStr course_row.course_name),
     ("alternateName", optStr course_row.course_alternate_name),
     ("description", optStr course_row.course_description),
     ("url", optStr course_row.course_url),
     ("educationalCredentialAwarded", optStr course_row.course_credential),
     ("educationalLevel", optStr course_row.course_level),
     ("timeRequired", optStr course_row.course_duration_iso8601),
     ("abstract", optStr course_row.course_abstract),
     ("coursePrerequisites", optStr course_row.course_prerequisites),
     ("occupationalCredentialAwarded", optStr course_row.course_benefits),
     ("teaches", .list teaches),
     ("audience", .obj (
        [("@type", JVal.str "Audience"),
         ("audienceType", optStr course_row.course_audience_type)]
        ++ (if course_row.geographic_type.isSome then
              [("geographicArea", JVal.obj
                 [("@type", optStr course_row.geographic_type),
                  ("name", optStr course_row.geographic_name)])]
            else []))),
     ("availableLanguage", optStr course_row.course_language),
     ("hasCourseInstance", .obj
        [("@type", .str "CourseInstance"),
         ("courseMode", .list
            ([optStr course_row.course_mode_1]
             ++ (if course_row.course_mode_2.isSome then
                   [optStr course_row.course_mode_2]
                 else []))),
         ("courseWorkload", optStr course_row.course_workload_iso8601),
         ("courseSchedule", .obj
            [("@type", .str "Schedule"),
             ("scheduleTimezone", optStr course_row.course_timezone),
             ("repeatFrequency", .str "P1D"),
             ("byDay", .list
                [.str "Monday", .str "Tuesday", .str "Wednesday", .str "Thursday",
                 .str "Friday", .str "Saturday", .str "Sunday"])]),
         ("instructor", .obj
            [("@type", .str "Organization"),
             ("name", optStr course_row.course_instructor_org)])]),
     ("offers", .obj
        [("@type", .str "Offer"),
         ("category", optStr course_row.offer_category),
         ("priceCurrency", .str "USD"),
         ("availability", .str "https://schema.org/InStock"),
         ("availabilityStarts", optStr course_row.offer_availability_starts),
         ("validFrom", optStr course_row.offer_valid_from),
         ("url", optStr course_row.course_url),
         ("eligibleRegion", .obj
            [("@type", optStr course_row.eligible_region_type),
             ("name", optStr course_row.eligible_region_name),
             ("address", .obj
                [("@type", JVal.str "PostalAddress"),
                 ("addressRegion", optStr course_row.eligible_region_code),
                 ("addressCountry", JVal.str "US")])]),
         ("deliveryMethod", .str "OnlineOnly")]),
     ("provider", .obj [("@id", .str (get_org_value g "base_url" ++ "/#organization"))]),
     ("isPartOf", .obj [("@id", .str (category_row.category_page_url ++ "#catalog"))]),
     ("inLanguage", optStr course_row.course_in_language),
     ("locationCreated", .obj
        [("@type", optStr course_row.location_created_type),
         ("name", optStr course_row.location_created_name),
         ("address", .obj
            [("@type", JVal.str "PostalAddress"),
             ("addressRegion", optStr course_row.location_created_region),
             ("addressCountry", JVal.str "US")])]),
     ("educationalUse", optStr course_row.course_educational_use),
     ("learningResourceType", optStr course_row.course_learning_resource_type),
     ("interactivityType", .str "mixed"),
     ("typicalAgeRange", optStr course_row.course_age_range)]
    ++ (match course_row.course_code with
        | some c => if c ≠ "N/A" then [("courseCode", JVal.str c)] else []
        | none => []))

/-- `SchemaGenerator.generate_area_served`: one State node per AreaRow of
the category, in source order. -/
def generate_area_served (g : SchemaGenerator) (category_id : String) : List JVal :=
  (g.areas_data.filter (fun r => r.categoryId == category_id)).map (fun row =>
    JVal.obj
      [("@type", .str "State"),
       ("name", optStr row.area_served_name),
       ("alternateName", optStr row.area_served_code),
       ("address", .obj
          [("@type", JVal.str "PostalAddress"),
           ("addressRegion", optStr row.area_served_code),
           ("addressCountry", JVal.str "US")]),
       ("description", optStr row.area_served_description)])

/-- `SchemaGenerator.generate_categories`: up to 6 tag strings from the
first TagsRow of the category, a tag included only when present. -/
def generate_categories (g : SchemaGenerator) (category_id : String) : List JVal :=
  match g.categories_data.find? (fun r => r.categoryId == category_id) with
  | none => []
  | some row =>
    ([row.category_1, row.category_2, row.category_3, row.category_4,
      row.category_5, row.category_6]).filterMap (fun o => o.map JVal.str)

/-- `SchemaGenerator.generate_offer_catalog_schema`: the category's course
rows, sorted ascending by `course_position`, each turned into a Course
node. -/
def generate_offer_catalog_schema (g : SchemaGenerator) (category_row : CategoryRow) : JVal :=
  let category_id := category_row.categoryId
  let category_courses :=
    sortByKey (fun c => c.course_position)
      (g.courses_data.filter (fun c => c.categoryId == category_id))
  let course_list := category_courses.map (fun c => generate_course_schema g c category_row)
  .obj
    [("@type", .str "OfferCatalog"),
     ("@id", .str ("#" ++ category_row.catalog_id)),
     ("name", optStr category_row.catalog_name),
     ("description", optStr category_row.catalog_description),
     ("numberOfItems", .int category_row.total_courses),
     ("provider", .obj [("@id", .str (get_org_value g "base_url" ++ "/#organization"))]),
     ("itemListElement", .list course_list),
     ("areaServed", .list (generate_area_served g category_id)),
     ("category", .list (generate_categories g category_id))]

/-- `SchemaGenerator.generate_faq_schema`: the category's FAQ rows sorted
ascending by `faq_position`, a Question node kept only when the row's
question is present. -/
def generate_faq_schema (g : SchemaGenerator) (category_id : String)
    (category_url : String) : JVal :=
  let faq_rows :=
    sortByKey (fun r => r.faq_position)
      (g.faqs_data.filter (fun r => r.categoryId == category_id))
  let faq_items : List JVal := faq_rows.filterMap (fun row =>
    match row.faq_question with
    | some q =>
      some (JVal.obj
        [("@type", .str "Question"),
         ("name", .str q),
         ("acceptedAnswer", .obj
            [("@type", JVal.str "Answer"),
             ("text", optStr row.faq_answer)])])
    | none => none)
  .obj
    [("@type", .str "FAQPage"),
     ("@id", .str (category_url ++ "#faq")),
     ("mainEntity", .list faq_items)]

/-- `SchemaGenerator.generate_schema_for_category`: look up the category
row (first match), raise `ValueError` when absent, otherwise assemble the
5-node graph in fixed order. -/
def generate_schema_for_category (g : SchemaGenerator) (category_id : String) :
    Except String JVal :=
  match g.category_data.find? (fun r => r.categoryId == category_id) with
  | none =>
    .error ("Category ID \x27" ++ category_id ++ "\x27 not found in category_pages.csv")
  | some category_row =>
    .ok (.obj
      [("@context", .str "https://schema.org"),
       ("@graph", .list
          [generate_website_schema g,
           generate_organization_schema g,
           generate_collection_page_schema g category_row,
           generate_offer_catalog_schema g category_row,
           generate_faq_schema g category_id category_row.category_page_url])])

/-- The `@type` strings of a document's graph nodes, as compared by the
validator (a node whose `@type` is absent or not a string contributes
`none` and never matches a required type). -/
def schemaTypes (schema : JVal) : List (Option String) :=
  (graphNodes schema).map typeOf

/-- `SchemaGenerator.validate_schema`: warning strings for a missing
`@context`, a missing `@graph`, and each of four required node types no
graph node carries; FAQPage is not among the required types. -/
def validate_schema (schema : JVal) : List String :=
  (if hasKey "@context" schema then [] else ["Missing @context"])
  ++ (if hasKey "@graph" schema then [] else ["Missing @graph"])
  ++ ((["WebSite", "EducationalOrganization", "CollectionPage", "OfferCatalog"] :
        List String).filterMap (fun req_type =>
          if (some req_type) ∈ schemaTypes schema then none
          else some ("Missing required schema type: " ++ req_type)))

/-- The integer `position` fields of the Course nodes in a catalog's
`itemListElement`, in document order. -/
def catalogCoursePositions (g : SchemaGenerator) (row : CategoryRow) : List Int :=
  match objLookup "itemListElement" (generate_offer_catalog_schema g row) with
  | some (.list items) => items.filterMap (fun item =>
      match objLookup "position" item with
      | some (.int n) => some n
      | _ => none)
  | _ => []

/-- The Question node `generate_faq_schema` builds from one FAQ row whose
question is present. -/
def faqNode (r : FaqRow) : JVal :=
  .obj [("@type", .str "Question"),
        ("name", optStr r.faq_question),
        ("acceptedAnswer", .obj
           [("@type", JVal.str "Answer"),
            ("text", optStr r.faq_answer)])]

/-- The `mainEntity` list of a generated FAQPage node. -/
def faqMainEntity (g : SchemaGenerator) (category_id category_url : String) : List JVal :=
  match objLookup "mainEntity" (generate_faq_schema g category_id category_url) with
  | some (.list xs) => xs
  | _ => []

/-! ## Concrete sample tables, used to exercise the theorems. -/

/-- A sample CategoryPage row (category CAT1, declared total of 2
courses). -/
def sampleCategoryRow : CategoryRow :=
  { categoryId := "CAT1",
    category_page_url := "https://example.com/courses/cat1",
    catalog_id := "cat1-catalog",
    total_courses := 2 }

/-- A CAT1 course row at position 2 whose course code is the sentinel. -/
def sampleCourseA : CourseRow :=
  { categoryId := "CAT1", course_position := 2, course_code := some "N/A" }

/-- A CAT1 course row at position 1 with a real course code; it precedes
position 2 in the output although it follows it in the table. -/
def sampleCourseB : CourseRow :=
  { categoryId := "CAT1", course_position := 1, course_code := some "CS101" }

/-- A course row of another category, excluded from CAT1 output. -/
def sampleCourseC : CourseRow :=
  { categoryId := "CAT2", course_position := 1 }

/-- A CAT1 FAQ row at position 2 with a present question. -/
def sampleFaqA : FaqRow :=
  { categoryId := "CAT1", faq_position := 2,
    faq_question := some "How long does it take?",
    faq_answer := some "Six weeks." }

/-- A CAT1 FAQ row at position 1 with an absent question. -/
def sampleFaqB : FaqRow :=
  { categoryId := "CAT1", faq_position := 1 }

/-- A sample table store over the rows above. -/
def sampleGen : SchemaGenerator :=
  { org_data := [⟨"base_url", "https://example.com"⟩,
                 ⟨"organization_name", "Example School"⟩],
    category_data := [sampleCategoryRow],
    about_topics_data := [],
    courses_data := [sampleCourseA, sampleCourseB, sampleCourseC],
    topics_data := [],
    areas_data := [],
    categories_data := [],
    faqs_data := [sampleFaqA, sampleFaqB] }

/-- A CategoryPage row whose first breadcrumb name is absent while the
second is present. -/
def sampleGapRow : CategoryRow :=
  { categoryId := "CAT9",
    category_page_url := "https://example.com/courses/cat9",
    breadcrumb_2_name := some "Courses",
    catalog_id := "cat9-catalog",
    total_courses := 0 }

/-! ## Facts about the sort used by the builders. -/

theorem insertByKey_perm (key : α → Int) (a : α) (l : List α) :
    List.Perm (insertByKey key a l) (a :: l) := by
  induction l with
  | nil => exact List.Perm.refl _
  | cons b bs ih =>
    rw [insertByKey]
    split
    · exact List.Perm.refl _
    · exact (ih.cons b).trans (List.Perm.swap a b bs)

theorem sortByKey_perm (key : α → Int) (l : List α) : List.Perm (sortByKey key l) l := by
  induction l with
  | nil => exact List.Perm.refl _
  | cons a rest ih =>
    exact (insertByKey_perm key a (sortByKey key rest)).trans (ih.cons a)

theorem pairwise_insertByKey (key : α → Int) (a : α) {l : List α}
    (h : l.Pairwise (fun x y => key x ≤ key y)) :
    (insertByKey key a l).Pairwise (fun x y => key x ≤ key y) := by
  induction l with
  | nil => simp [insertByKey]
  | cons b bs ih =>
    rw [List.pairwise_cons] at h
    rw [insertByKey]
    split
    · rename_i hab
      refine List.pairwise_cons.mpr ⟨?_, List.pairwise_cons.mpr h⟩
      intro c hc
      rcases List.mem_cons.mp hc with rfl | hc2
      · exact hab
      · exact le_trans hab (h.1 c hc2)
    · rename_i hab
      refine List.pairwise_cons.mpr ⟨?_, ih h.2⟩
      intro c hc
      rcases List.mem_cons.mp ((insertByKey_perm key a bs).mem_iff.mp hc) with rfl | hc2
      · exact le_of_not_le hab
      · exact h.1 c hc2

theorem pairwise_sortByKey (key : α → Int) (l : List α) :
    (sortByKey key l).Pairwise (fun x y => key x ≤ key y) := by
  induction l with
  | nil => simp [sortByKey]
  | cons a rest ih => exact pairwise_insertByKey key a ih

theorem map_insertByKey (key : α → Int) (a : α) (l : List α) :
    (insertByKey key a l).map key = insertByKey (fun n => n) (key a) (l.map key) := by
  induction l with
  | nil => rfl
  | cons b bs ih => by_cases hab : key a ≤ key b <;> simp [insertByKey, hab, ih]

theorem map_sortByKey (key : α → Int) (l : List α) :
    (sortByKey key l).map key = sortByKey (fun n => n) (l.map key) := by
  induction l with
  | nil => rfl
  | cons a rest ih => simp [sortByKey, map_insertByKey, ih]

/-! ## Small facts about individual builders, shared by the claim
theorems. -/

theorem typeOf_website (g : SchemaGenerator) :
    typeOf (generate_website_schema g) = some "WebSite" := by
  simp [generate_website_schema, typeOf, objLookup, lookupField]

theorem typeOf_organization (g : SchemaGenerator) :
    typeOf (generate_organization_schema g) = some "EducationalOrganization" := by
  simp [generate_organization_schema, typeOf, objLookup, lookupField]

theorem typeOf_collection_page (g : SchemaGenerator) (row : CategoryRow) :
    typeOf (generate_collection_page_schema g row) = some "CollectionPage" := by
  simp [generate_collection_page_schema, typeOf, objLookup, lookupField]

theorem typeOf_offer_catalog (g : SchemaGenerator) (row : CategoryRow) :
    typeOf (generate_offer_catalog_schema g row) = some "OfferCatalog" := by
  simp [generate_offer_catalog_schema, typeOf, objLookup, lookupField]

theorem typeOf_faq (g : SchemaGenerator) (category_id category_url : String) :
    typeOf (generate_faq_schema g category_id category_url) = some "FAQPage" := by
  simp [generate_faq_schema, typeOf, objLookup, lookupField]

theorem position_of_course_node (g : SchemaGenerator) (c : CourseRow) (row : CategoryRow) :
    objLookup "position" (generate_course_schema g c row) = some (.int c.course_position) := by
  simp [generate_course_schema, objLookup, lookupField]

/-! ## Claim theorems. -/

/-- C3: for every table store and CategoryPage row, the OfferCatalog
node's `numberOfItems` equals the row's declared `total_courses`
attribute; since this holds for every store, it is independent of the
Course rows and never recomputed from the item list. -/
theorem offer_catalog_numberOfItems_declared (g : SchemaGenerator) (row : CategoryRow) :
    objLookup "numberOfItems" (generate_offer_catalog_schema g row)
      = some (.int row.total_courses) := by
  simp [generate_offer_catalog_schema, objLookup, lookupField]

/-- C5: a Course node carries the `courseCode` key, bound to the row's
`course_code` string, exactly when that cell is present and not the
literal "N/A"; otherwise the key is wholly absent (lookup is `none`,
never `some .null`). -/
theorem course_code_conditional (g : SchemaGenerator) (c : CourseRow) (row : CategoryRow) :
    objLookup "courseCode" (generate_course_schema g c row)
      = (match c.course_code with
         | some s => if s ≠ "N/A" then some (JVal.str s) else none
         | none => none) := by
  cases hc : c.course_code with
  | none => simp [generate_course_schema, objLookup, lookupField, hc]
  | some s =>
    by_cases hs : s ≠ "N/A" <;>
      simp [generate_course_schema, objLookup, lookupField, hc, hs]

/-- C6: the EducationalOrganization node's `sameAs` is the ordered
six-entry list of the social-profile variables facebook, instagram,
twitter, linkedin, youtube, tiktok; each entry is whatever the resolver
returns for that variable, so a blank variable contributes an
empty-string entry instead of being filtered out. -/
theorem organization_sameAs_fixed_order (g : SchemaGenerator) :
    objLookup "sameAs" (generate_organization_schema g)
      = some (.list
          [.str (get_org_value g "social_facebook"),
           .str (get_org_value g "social_instagram"),
           .str (get_org_value g "social_twitter"),
           .str (get_org_value g "social_linkedin"),
           .str (get_org_value g "social_youtube"),
           .str (get_org_value g "social_tiktok")]) := by
  simp [generate_organization_schema, objLookup, lookupField]

/-- C7: `get_org_value` is total (the embedding is a Lean function, so it
never raises) and either returns the `Value` of a matching
OrganizationVariable row, or the empty string when no row's
`Variable Name` equals the requested name. -/
theorem get_org_value_total_lookup (g : SchemaGenerator) (name : String) :
    (∃ r ∈ g.org_data, r.variableName = name ∧ get_org_value g name = r.value)
    ∨ ((∀ r ∈ g.org_data, r.variableName ≠ name) ∧ get_org_value g name = "") := by
  unfold get_org_value
  cases hf : g.org_data.find? (fun r => r.variableName == name) with
  | none =>
    right
    refine ⟨fun r hr => ?_, rfl⟩
    have := List.find?_eq_none.mp hf r hr
    simpa using this
  | some r =>
    left
    exact ⟨r, List.mem_of_find?_eq_some hf,
      by simpa using List.find?_some hf, rfl⟩

/-- C10: when `breadcrumb_1_name` is absent but `breadcrumb_2_name` is
present, the BreadcrumbList's `itemListElement` is the single ListItem
for the second breadcrumb: it keeps the fixed position label 2 (the gap
is not renumbered), carries the name, and has no `item` url key. -/
theorem breadcrumb_gap_position_two (row : CategoryRow) (n : String)
    (h1 : row.breadcrumb_1_name = none) (h2 : row.breadcrumb_2_name = some n) :
    objLookup "itemListElement" (generate_breadcrumb_schema row)
        = some (.list [.obj [("@type", .str "ListItem"),
                             ("position", .int 2),
                             ("name", .str n)]])
      ∧ objLookup "item"
          (JVal.obj [("@type", .str "ListItem"),
                     ("position", .int 2),
                     ("name", .str n)]) = none := by
  constructor
  · simp [generate_breadcrumb_schema, objLookup, lookupField, h1, h2, optStr]
  · simp [objLookup, lookupField]

/-- C1: for every category identifier with a matching CategoryPage row,
the assembled document has `@context` "https://schema.org" and a
`@graph` of exactly 5 nodes in the fixed order WebSite,
EducationalOrganization, CollectionPage, OfferCatalog, FAQPage. -/
theorem generate_schema_graph_fixed (g : SchemaGenerator) (c : String)
    (h : ∃ r ∈ g.category_data, r.categoryId = c) :
    ∃ doc, generate_schema_for_category g c = .ok doc
      ∧ objLookup "@context" doc = some (.str "https://schema.org")
      ∧ (graphNodes doc).map typeOf
          = [some "WebSite", some "EducationalOrganization", some "CollectionPage",
             some "OfferCatalog", some "FAQPage"] := by
  obtain ⟨r, hr, hrc⟩ := h
  have hs : (g.category_data.find? (fun x => x.categoryId == c)).isSome :=
    List.find?_isSome.mpr ⟨r, hr, by simp [hrc]⟩
  obtain ⟨row, hrow⟩ := Option.isSome_iff_exists.mp hs
  refine ⟨.obj
      [("@context", .str "https://schema.org"),
       ("@graph", .list
          [generate_website_schema g,
           generate_organization_schema g,
           generate_collection_page_schema g row,
           generate_offer_catalog_schema g row,
           generate_faq_schema g c row.category_page_url])], ?_, ?_, ?_⟩
  · unfold generate_schema_for_category
    rw [hrow]
  · simp [objLookup, lookupField]
  · simp [graphNodes, objLookup, lookupField, typeOf_website, typeOf_organization,
      typeOf_collection_page, typeOf_offer_catalog, typeOf_faq]

/-- Witness for C1 at the sample store and category CAT1. -/
theorem generate_schema_graph_fixed_witness :
    ∃ doc, generate_schema_for_category sampleGen "CAT1" = .ok doc
      ∧ objLookup "@context" doc = some (.str "https://schema.org")
      ∧ (graphNodes doc).map typeOf
          = [some "WebSite", some "EducationalOrganization", some "CollectionPage",
             some "OfferCatalog", some "FAQPage"] :=
  generate_schema_graph_fixed sampleGen "CAT1"
    ⟨sampleCategoryRow, by simp [sampleGen], rfl⟩

/-- C2: when no CategoryPage row matches the identifier, the assembler
fails with the not-found error and produces no document; when one
matches, it succeeds with a document. -/
theorem generate_schema_category_lookup (g : SchemaGenerator) (c : String) :
    ((∀ r ∈ g.category_data, r.categoryId ≠ c) →
       generate_schema_for_category g c
         = .error ("Category ID \x27" ++ c ++ "\x27 not found in category_pages.csv"))
    ∧ ((∃ r ∈ g.category_data, r.categoryId = c) →
       ∃ doc, generate_schema_for_category g c = .ok doc) := by
  constructor
  · intro hnone
    have hf : g.category_data.find? (fun r => r.categoryId == c) = none :=
      List.find?_eq_none.mpr (fun r hr => by simpa using hnone r hr)
    unfold generate_schema_for_category
    rw [hf]
  · rintro ⟨r, hr, hrc⟩
    have hs : (g.category_data.find? (fun x => x.categoryId == c)).isSome :=
      List.find?_isSome.mpr ⟨r, hr, by simp [hrc]⟩
    obtain ⟨row, hrow⟩ := Option.isSome_iff_exists.mp hs
    refine ⟨.obj
        [("@context", .str "https://schema.org"),
         ("@graph", .list
            [generate_website_schema g,
             generate_organization_schema g,
             generate_collection_page_schema g row,
             generate_offer_catalog_schema g row,
             generate_faq_schema g c row.category_page_url])], ?_⟩
    unfold generate_schema_for_category
    rw [hrow]

/-- The catalog's `itemListElement` is the Course nodes of the category's
rows sorted ascending by position. -/
theorem offer_catalog_itemListElement (g : SchemaGenerator) (row : CategoryRow) :
    objLookup "itemListElement" (generate_offer_catalog_schema g row)
      = some (.list ((sortByKey (fun c => c.course_position)
          (g.courses_data.filter (fun c => c.categoryId == row.categoryId))).map
          (fun c => generate_course_schema g c row))) := by
  simp [generate_offer_catalog_schema, objLookup, lookupField]

/-- Extracting the `position` field from a list of Course nodes recovers
each source row's `course_position`. -/
theorem course_nodes_positions (g : SchemaGenerator) (row : CategoryRow) (l : List CourseRow) :
    (l.map (fun c => generate_course_schema g c row)).filterMap (fun item =>
        match objLookup "position" item with
        | some (.int n) => some n
        | _ => none)
      = l.map (fun c => c.course_position) := by
  induction l with
  | nil => rfl
  | cons c cs ih => simp [List.filterMap_cons, position_of_course_node, ih]

/-- C4: the `position` fields of `OfferCatalog.itemListElement` are
exactly the category's `course_position` values sorted ascending; each
Course node keeps its own row's position, and — the positions of a
category's rows being distinct — the sequence is strictly increasing. -/
theorem offer_catalog_positions_sorted (g : SchemaGenerator) (row : CategoryRow)
    (h : ((g.courses_data.filter (fun c => c.categoryId == row.categoryId)).map
            (fun c => c.course_position)).Nodup) :
    catalogCoursePositions g row
        = sortByKey (fun n => n)
            ((g.courses_data.filter (fun c => c.categoryId == row.categoryId)).map
              (fun c => c.course_position))
      ∧ (catalogCoursePositions g row).Pairwise (· < ·)
      ∧ ∀ c : CourseRow, objLookup "position" (generate_course_schema g c row)
          = some (.int c.course_position) := by
  have hlist : catalogCoursePositions g row
      = (sortByKey (fun c => c.course_position)
          (g.courses_data.filter (fun c => c.categoryId == row.categoryId))).map
          (fun c => c.course_position) := by
    unfold catalogCoursePositions
    rw [offer_catalog_itemListElement]
    exact course_nodes_positions g row _
  refine ⟨hlist.trans (map_sortByKey _ _), ?_, fun c => position_of_course_node g c row⟩
  rw [hlist]
  have hle : ((sortByKey (fun c => c.course_position)
      (g.courses_data.filter (fun c => c.categoryId == row.categoryId))).map
      (fun c => c.course_position)).Pairwise (· ≤ ·) :=
    List.pairwise_map.mpr (pairwise_sortByKey _ _)
  have hperm : List.Perm
      ((g.courses_data.filter (fun c => c.categoryId == row.categoryId)).map
        (fun c => c.course_position))
      ((sortByKey (fun c => c.course_position)
          (g.courses_data.filter (fun c => c.categoryId == row.categoryId))).map
        (fun c => c.course_position)) :=
    (sortByKey_perm _ _).symm.map _
  have hnd := hperm.nodup h
  exact (hle.and hnd).imp (fun hab => lt_of_le_of_ne hab.1 hab.2)

/-- Witness for C4 at the sample store: CAT1 has course rows at positions
2 and 1 (in that table order) and an unrelated CAT2 row. -/
theorem offer_catalog_positions_sorted_witness :
    ((sampleGen.courses_data.filter
        (fun c => c.categoryId == sampleCategoryRow.categoryId)).map
        (fun c => c.course_position)).Nodup
    ∧ (catalogCoursePositions sampleGen sampleCategoryRow
          = sortByKey (fun n => n)
              ((sampleGen.courses_data.filter
                  (fun c => c.categoryId == sampleCategoryRow.categoryId)).map
                (fun c => c.course_position))
        ∧ (catalogCoursePositions sampleGen sampleCategoryRow).Pairwise (· < ·)
        ∧ ∀ c : CourseRow,
            objLookup "position" (generate_course_schema sampleGen c sampleCategoryRow)
              = some (.int c.course_position)) :=
  ⟨by decide, offer_catalog_positions_sorted sampleGen sampleCategoryRow (by decide)⟩

/-- Keeping the rows with a present question commutes with building the
Question nodes: the filterMap in `generate_faq_schema` equals a filter on
question presence followed by the per-row node map. -/
theorem faq_items_filter_map (l : List FaqRow) :
    (l.filterMap (fun row =>
        match row.faq_question with
        | some q =>
          some (JVal.obj
            [("@type", .str "Question"),
             ("name", .str q),
             ("acceptedAnswer", .obj
                [("@type", JVal.str "Answer"),
                 ("text", optStr row.faq_answer)])])
        | none => none))
      = (l.filter (fun r => r.faq_question.isSome)).map faqNode := by
  induction l with
  | nil => rfl
  | cons r rs ih =>
    cases hq : r.faq_question <;>
      simpa [List.filterMap_cons, List.filter_cons, hq, faqNode, optStr] using ih

/-- C8: `FAQPage.mainEntity` holds one Question node per FAQ row of the
category whose question is present (carrying that row's question as name
and its answer text), in ascending `faq_position` order; rows with an
absent question are dropped without changing the surviving nodes. -/
theorem faq_main_entity_ordered (g : SchemaGenerator) (category_id category_url : String) :
    faqMainEntity g category_id category_url
        = ((sortByKey (fun r => r.faq_position)
              (g.faqs_data.filter (fun r => r.categoryId == category_id))).filter
            (fun r => r.faq_question.isSome)).map faqNode
      ∧ (((sortByKey (fun r => r.faq_position)
              (g.faqs_data.filter (fun r => r.categoryId == category_id))).filter
            (fun r => r.faq_question.isSome)).map
            (fun r => r.faq_position)).Pairwise (· ≤ ·) := by
  constructor
  · have hm : objLookup "mainEntity" (generate_faq_schema g category_id category_url)
        = some (.list ((sortByKey (fun r => r.faq_position)
            (g.faqs_data.filter (fun r => r.categoryId == category_id))).filterMap
            (fun row =>
              match row.faq_question with
              | some q =>
                some (JVal.obj
                  [("@type", .str "Question"),
                   ("name", .str q),
                   ("acceptedAnswer", .obj
                      [("@type", JVal.str "Answer"),
                       ("text", optStr row.faq_answer)])])
              | none => none))) := by
      simp [generate_faq_schema, objLookup, lookupField]
    unfold faqMainEntity
    rw [hm, faq_items_filter_map]
  · exact List.pairwise_map.mpr
      (List.Pairwise.sublist (List.filter_sublist _) (pairwise_sortByKey _ _))

/-- C9: the validator is a total function (it never raises) whose warning
list flags a missing `@context`, a missing `@graph`, and each of the four
required node types absent from the graph; FAQPage is never flagged; the
list is empty exactly when every one of those checks passes. -/
theorem validate_schema_checks (schema : JVal) :
    ("Missing @context" ∈ validate_schema schema ↔ hasKey "@context" schema = false)
  ∧ ("Missing @graph" ∈ validate_schema schema ↔ hasKey "@graph" schema = false)
  ∧ (∀ t ∈ (["WebSite", "EducationalOrganization", "CollectionPage", "OfferCatalog"] :
        List String),
      (("Missing required schema type: " ++ t) ∈ validate_schema schema
        ↔ some t ∉ schemaTypes schema))
  ∧ "Missing required schema type: FAQPage" ∉ validate_schema schema
  ∧ (validate_schema schema = []
      ↔ (hasKey "@context" schema = true ∧ hasKey "@graph" schema = true
          ∧ ∀ t ∈ (["WebSite", "EducationalOrganization", "CollectionPage",
                     "OfferCatalog"] : List String),
              some t ∈ schemaTypes schema)) := by
  cases h1 : hasKey "@context" schema <;> cases h2 : hasKey "@graph" schema <;>
  by_cases h3 : (some "WebSite" : Option String) ∈ schemaTypes schema <;>
  by_cases h4 : (some "EducationalOrganization" : Option String) ∈ schemaTypes schema <;>
  by_cases h5 : (some "CollectionPage" : Option String) ∈ schemaTypes schema <;>
  by_cases h6 : (some "OfferCatalog" : Option String) ∈ schemaTypes schema <;>
  simp [validate_schema, h1, h2, h3, h4, h5, h6]

/-- Witness for C10 at a concrete row with breadcrumb 1 absent and
breadcrumb 2 named "Courses". -/
theorem breadcrumb_gap_position_two_witness :
    sampleGapRow.breadcrumb_1_name = none
    ∧ sampleGapRow.breadcrumb_2_name = some "Courses"
    ∧ (objLookup "itemListElement" (generate_breadcrumb_schema sampleGapRow)
          = some (.list [.obj [("@type", .str "ListItem"),
                               ("position", .int 2),
                               ("name", .str "Courses")]])
        ∧ objLookup "item"
            (JVal.obj [("@type", .str "ListItem"),
                       ("position", .int 2),
                       ("name", .str "Courses")]) = none) :=
  ⟨rfl, rfl, breadcrumb_gap_position_two sampleGapRow "Courses" rfl rfl⟩

end CategorySchema
